import Mathlib

/-!
# ChartsBack: telemetry projection and flat export

A shallow embedding of the request handlers of `main.go` and of `queryData`
from `influx.go`, together with the properties of the telemetry row loop,
the handlers' error paths and the flat export.

Modelling conventions

* A Go `interface{}` value is a `Value`; the nil interface is `Value.null`.
* A float64 is represented by the rational number it denotes. The Go code
  only moves float64 values from the cursor into the response, it performs
  no arithmetic on them. The one division, by 1000.0 in the query text, is
  taken as the exact quotient.
* A Go slice is `Option (List α)`: `none` is the nil slice, `some []` the
  empty non-nil slice (they encode to JSON `null` and `[]` respectively).
* A Go `map[string]T` is an association list with unique keys.
* The store client (`queryAPI.Query`, the cursor's `Next`, `Record`, `Err`)
  is external. A call of `Query` is represented by its outcome: either an
  error message, or a cursor given by the records `Next` delivers before it
  returns false and the error `Err` reports afterwards.
* `rec.Time().UTC().Format(time.RFC3339)` is library code; the formatter is
  a parameter `fmt` of the row loop.
* The `/api/telemetry` query text ends in a `map` stage that rewrites the
  `main_power_voltage` column of every pivoted row; the store runs it before
  the cursor is read. `voltageMapStage` is that stage on one row, and the
  rows of the cursor are the pivoted rows with the stage applied.
-/

namespace ChartsBack

/-- An instant (`time.Time`), as nanoseconds since the Unix epoch. -/
abbrev Time := Int

/-- A dynamically typed Go value, as the store client hands them out. -/
inductive Value where
  | null
  | str (s : String)
  | float64 (x : ℚ)
  | int64 (i : Int)
  | uint64 (n : Nat)
  | bool (b : Bool)
  | time (t : Time)
  | bytes (b : List Nat)
deriving DecidableEq

/-- Go `v, ok := x.(int64)`: `some v` when `ok`. -/
def asInt64 : Value → Option Int
  | .int64 i => some i
  | _ => none

/-- Go `v, ok := x.(float64)`: `some v` when `ok`. -/
def asFloat64 : Value → Option ℚ
  | .float64 x => some x
  | _ => none

/-- Go `v, ok := x.(string)`: `some v` when `ok`. -/
def asString : Value → Option String
  | .str s => some s
  | _ => none

/-- A Go slice: `none` is nil, `some l` a non-nil slice with elements `l`. -/
abbrev Slice (α : Type) := Option (List α)

/-- Go `append(s, x)`. -/
def goAppend {α : Type} (s : Slice α) (x : α) : Slice α :=
  match s with
  | none => some [x]
  | some l => some (l ++ [x])

/-- Go `len(s)`. -/
def Slice.len {α : Type} (s : Slice α) : Nat :=
  match s with
  | none => 0
  | some l => l.length

/-- The elements of a slice, nil having none. -/
def Slice.elems {α : Type} (s : Slice α) : List α :=
  match s with
  | none => []
  | some l => l

/-- A Go `map[string]β`. -/
abbrev GoMap (β : Type) := List (String × β)

/-- Go `v, ok := m[k]`. -/
def GoMap.get {β : Type} (m : GoMap β) (k : String) : Option β :=
  match m with
  | [] => none
  | (k1, v) :: rest => if k1 = k then some v else GoMap.get rest k

/-- Go `m[k] = v`. -/
def GoMap.set {β : Type} (m : GoMap β) (k : String) (v : β) : GoMap β :=
  match m with
  | [] => [(k, v)]
  | (k1, v1) :: rest => if k1 = k then (k, v) :: rest else (k1, v1) :: GoMap.set rest k v

/-- Go `m[k]` on a map of slices: the nil slice when the key is missing. -/
def GoMap.index {α : Type} (m : GoMap (Slice α)) (k : String) : Slice α :=
  (GoMap.get m k).getD none

/-- The keys of a map. -/
def GoMap.keys {β : Type} (m : GoMap β) : List String :=
  m.map Prod.fst

/-- One record of a result cursor: what `Time()`, `Field()`, `Value()` return
and the columns `ValueByKey` looks into. -/
structure Record where
  time : Time
  field : String
  value : Value
  values : GoMap Value

/-- The client's `rec.ValueByKey(key)`: the column's value, nil when the
record has no such column. -/
def Record.ValueByKey (rec : Record) (key : String) : Value :=
  (GoMap.get rec.values key).getD Value.null

/-- A result cursor: the records `Next()` delivers, and what `Err()` reports
once `Next()` has returned false. -/
structure QueryTableResult where
  records : List Record
  err : Option String

/-- The outcome of `queryAPI.Query(ctx, query)`. -/
abbrev QueryOutcome := Except String QueryTableResult

/-- What a handler writes: `http.Error(w, message, status)`, or a JSON body
with the default status. -/
inductive Response (β : Type) where
  | error (status : Nat) (message : String)
  | json (body : β)

/-- The `/api/telemetry` response object `{"series": ..., "track": ...}`. -/
structure TelemetryResponse where
  series : GoMap (Slice (GoMap Value))
  track : Slice (GoMap Value)

/-- The `series` and `track` variables before the row loop. -/
def telemetryInit : TelemetryResponse :=
  { series := [("speed", some []), ("fls485_level_2", some []), ("main_power_voltage", some [])]
    track := some [] }

/-- The body of the `/api/telemetry` row loop, for one record. -/
def telemetryRow (fmt : Time → String) (st : TelemetryResponse) (rec : Record) :
    TelemetryResponse :=
  let t := fmt rec.time
  let series := st.series
  let series :=
    match asInt64 (rec.ValueByKey "speed") with
    | some v =>
      series.set "speed" (goAppend (series.index "speed") [("time", .str t), ("value", .int64 v)])
    | none => series
  let series :=
    match asInt64 (rec.ValueByKey "fls485_level_2") with
    | some v =>
      series.set "fls485_level_2"
        (goAppend (series.index "fls485_level_2") [("time", .str t), ("value", .int64 v)])
    | none => series
  let series :=
    match asFloat64 (rec.ValueByKey "main_power_voltage") with
    | some v =>
      series.set "main_power_voltage"
        (goAppend (series.index "main_power_voltage") [("time", .str t), ("value", .float64 v)])
    | none => series
  let lat := asFloat64 (rec.ValueByKey "latitude")
  let lon := asFloat64 (rec.ValueByKey "longitude")
  let eventTime := (asInt64 (rec.ValueByKey "event_time")).getD 0
  let track :=
    match lat, lon with
    | some lat, some lon =>
      goAppend st.track
        [("time", .str t), ("lat", .float64 lat), ("lon", .float64 lon),
         ("event_time", .int64 eventTime)]
    | _, _ => st.track
  { series := series, track := track }

/-- The `/api/telemetry` row loop `for result.Next() { ... }` over the records
the cursor delivers. -/
def telemetryRowLoop (fmt : Time → String) (records : List Record) : TelemetryResponse :=
  records.foldl (telemetryRow fmt) telemetryInit

/-- The `/api/telemetry` handler. `query` is the outcome of the store call on
the formatted query text. -/
def telemetryHandler (fmt : Time → String) (imei start stop : String) (query : QueryOutcome) :
    Response TelemetryResponse :=
  if imei = "" ∨ start = "" ∨ stop = "" then
    .error 400 "imei, start, end обязательны"
  else
    match query with
    | .error e => .error 500 ("Query error: " ++ e)
    | .ok result => .json (telemetryRowLoop fmt result.records)

/-- The `/api/imeis` response object. -/
structure ImeiResponse where
  IMEIs : Slice String

/-- The string-collecting loop shared by `/api/imeis` and `/api/fields`. -/
def collectStrings (records : List Record) : Slice String :=
  records.foldl
    (fun acc rec =>
      match asString rec.value with
      | some v => goAppend acc v
      | none => acc)
    none

/-- The `/api/imeis` handler. -/
def imeisHandler (query : QueryOutcome) : Response ImeiResponse :=
  match query with
  | .error e => .error 500 ("Query error: " ++ e)
  | .ok result =>
    let imeis := collectStrings result.records
    match result.err with
    | some e => .error 500 ("Flux parsing error: " ++ e)
    | none => .json { IMEIs := imeis }

/-- The `/api/fields` handler; the body is `{"fields": fields}`. -/
def fieldsHandler (imei : String) (query : QueryOutcome) : Response (GoMap (Slice String)) :=
  if imei = "" then
    .error 400 "imei обязателен"
  else
    match query with
    | .error e => .error 500 ("Query error: " ++ e)
    | .ok result =>
      let fields := collectStrings result.records
      match result.err with
      | some e => .error 500 ("Flux parsing error: " ++ e)
      | none => .json [("fields", fields)]

/-- The row `queryData` builds for one record. -/
def dataEntry (rec : Record) : GoMap Value :=
  [("time", .time rec.time), ("field", .str rec.field), ("value", rec.value)]

/-- Function `queryData` of `influx.go`: the returned `(data, err)`, with
`query` the outcome of the store call on the formatted query text. -/
def queryData (query : QueryOutcome) : Slice (GoMap Value) × Option String :=
  match query with
  | .error e => (none, some e)
  | .ok result =>
    let data := result.records.foldl (fun data rec => goAppend data (dataEntry rec)) none
    match result.err with
    | some e => (none, some e)
    | none => (data, none)

/-! ## Per-record projections used to state the properties -/

/-- A series point `{"time": t, "value": v}`. -/
def seriesPoint (t : String) (v : Value) : GoMap Value :=
  [("time", .str t), ("value", v)]

/-- A track point `{"time", "lat", "lon", "event_time"}`. -/
def trackPoint (t : String) (lat lon : ℚ) (eventTime : Int) : GoMap Value :=
  [("time", .str t), ("lat", .float64 lat), ("lon", .float64 lon), ("event_time", .int64 eventTime)]

/-- The point a record contributes to an integer series under column `key`. -/
def intPointOf (fmt : Time → String) (key : String) (rec : Record) : Option (GoMap Value) :=
  (asInt64 (rec.ValueByKey key)).map (fun v => seriesPoint (fmt rec.time) (.int64 v))

/-- The point a record contributes to the voltage series. -/
def voltagePointOf (fmt : Time → String) (rec : Record) : Option (GoMap Value) :=
  (asFloat64 (rec.ValueByKey "main_power_voltage")).map
    (fun v => seriesPoint (fmt rec.time) (.float64 v))

/-- The track point a record contributes. -/
def trackPointOf (fmt : Time → String) (rec : Record) : Option (GoMap Value) :=
  match asFloat64 (rec.ValueByKey "latitude"), asFloat64 (rec.ValueByKey "longitude") with
  | some lat, some lon =>
    some (trackPoint (fmt rec.time) lat lon ((asInt64 (rec.ValueByKey "event_time")).getD 0))
  | _, _ => none

/-- The `"time"` entry of a point, as a string. -/
def pointTime (p : GoMap Value) : String :=
  match GoMap.get p "time" with
  | some (.str t) => t
  | _ => ""

/-- Go `delete(m, k)`. -/
def GoMap.erase {β : Type} (m : GoMap β) (k : String) : GoMap β :=
  match m with
  | [] => []
  | (k1, v) :: rest => if k1 = k then GoMap.erase rest k else (k1, v) :: GoMap.erase rest k

/-- The record with column `key` removed. -/
def Record.without (rec : Record) (key : String) : Record :=
  { rec with values := GoMap.erase rec.values key }

/-- The three series names. -/
def seriesKeys : List String := ["speed", "fls485_level_2", "main_power_voltage"]

/-- Flux `float(v: x)` on the numeric column types: the number itself. What
it gives on the other column types is the store's business and is the
parameter `conv`. -/
def fluxFloat (conv : Value → ℚ) : Value → ℚ
  | .float64 x => x
  | .int64 i => (i : ℚ)
  | .uint64 n => (n : ℚ)
  | v => conv v

/-- The `map` stage of the `/api/telemetry` query text, on one pivoted row:
`r with main_power_voltage: if exists r.main_power_voltage then
float(v: r.main_power_voltage) / 1000.0 else float(v: 0.0)`. -/
def voltageMapStage (conv : Value → ℚ) (r : Record) : Record :=
  { r with
    values :=
      GoMap.set r.values "main_power_voltage"
        (if r.ValueByKey "main_power_voltage" ≠ Value.null then
          .float64 (fluxFloat conv (r.ValueByKey "main_power_voltage") / 1000)
        else
          .float64 (fluxFloat conv (.float64 0))) }

/-- The rows the cursor of the `/api/telemetry` query delivers, given the
pivoted, time-sorted rows the `map` stage receives. -/
def telemetryCursorRows (conv : Value → ℚ) (pivoted : List Record) : List Record :=
  pivoted.map (voltageMapStage conv)

/-- The voltage the `map` stage leaves in a row, as a number. -/
def mappedVoltage (conv : Value → ℚ) (r : Record) : ℚ :=
  if r.ValueByKey "main_power_voltage" ≠ Value.null then
    fluxFloat conv (r.ValueByKey "main_power_voltage") / 1000
  else 0

/-! ## Example data -/

/-- A stand-in for the RFC 3339 formatter in the worked examples: it is
monotone and renders the whole minutes 0, 1 and 2 of the epoch, the instants
of the example rows, as RFC 3339 does in UTC. -/
def exampleFormat (t : Time) : String :=
  if t < 60000000000 then "1970-01-01T00:00:00Z"
  else if t < 120000000000 then "1970-01-01T00:01:00Z"
  else "1970-01-01T00:02:00Z"

/-- A pivoted row at 00:00:00 carrying `speed = 5` and a position, and no
`main_power_voltage` column. -/
def rowNoVoltage : Record :=
  { time := 0, field := "", value := .null,
    values := [("speed", .int64 5), ("latitude", .float64 1), ("longitude", .float64 2)] }

/-- A pivoted row at 00:01:00 whose `main_power_voltage` column holds the
float 12345. -/
def rowRawVoltage : Record :=
  { time := 60000000000, field := "", value := .null,
    values := [("main_power_voltage", .float64 12345)] }

/-- A pivoted row at 00:02:00 whose `speed` column holds a string, with a
position and an event time. -/
def rowBadSpeed : Record :=
  { time := 120000000000, field := "", value := .null,
    values := [("speed", .str "fast"), ("latitude", .float64 (11 / 10)),
               ("longitude", .float64 (21 / 10)), ("event_time", .int64 42)] }

/-- A conversion for the non-numeric column types in the examples, none of
which has such a voltage. -/
def exampleConv (_ : Value) : ℚ := 0

/-- A pivoted row at 00:01:00 whose stored `main_power_voltage` is the
integer 12345. -/
def rowStoredMillivolts : Record :=
  { time := 60000000000, field := "", value := .null,
    values := [("main_power_voltage", .int64 12345)] }

/-- The row `rowNoVoltage` as the cursor delivers it: the `map` stage has
filled in the voltage 0. -/
def rowFilledVoltage : Record :=
  { time := 0, field := "", value := .null,
    values := [("speed", .int64 5), ("latitude", .float64 1), ("longitude", .float64 2),
               ("main_power_voltage", .float64 0)] }

/-- The row `rowBadSpeed` as the cursor delivers it. -/
def rowBadSpeedFilled : Record :=
  { time := 120000000000, field := "", value := .null,
    values := [("speed", .str "fast"), ("latitude", .float64 (11 / 10)),
               ("longitude", .float64 (21 / 10)), ("event_time", .int64 42),
               ("main_power_voltage", .float64 0)] }

/-- A pivoted row at 00:01:00 carrying only `fls485_level_2 = 7`. -/
def rowLevelOnly : Record :=
  { time := 60000000000, field := "", value := .null,
    values := [("fls485_level_2", .int64 7)] }

/-- A pivoted row at 00:02:00 carrying `speed = 9` and a voltage. -/
def rowSpeedLater : Record :=
  { time := 120000000000, field := "", value := .null,
    values := [("speed", .int64 9), ("main_power_voltage", .float64 9)] }

/-! ## Maps -/

theorem GoMap.get_set_same {β : Type} (m : GoMap β) (k : String) (v : β) :
    GoMap.get (GoMap.set m k v) k = some v := by
  induction m with
  | nil => simp [GoMap.set, GoMap.get]
  | cons p rest ih =>
    obtain ⟨k1, v1⟩ := p
    by_cases h : k1 = k
    · simp [GoMap.set, GoMap.get, h]
    · simp [GoMap.set, GoMap.get, h, ih]

theorem GoMap.get_set_other {β : Type} (m : GoMap β) (k k2 : String) (v : β) (hk : k ≠ k2) :
    GoMap.get (GoMap.set m k v) k2 = GoMap.get m k2 := by
  induction m with
  | nil => simp [GoMap.set, GoMap.get, hk]
  | cons p rest ih =>
    obtain ⟨k1, v1⟩ := p
    by_cases h : k1 = k
    · subst h
      simp [GoMap.set, GoMap.get, hk]
    · by_cases h2 : k1 = k2
      · subst h2
        simp [GoMap.set, GoMap.get, h]
      · simp [GoMap.set, GoMap.get, h, h2, ih]

theorem GoMap.index_set_same {α : Type} (m : GoMap (Slice α)) (k : String) (v : Slice α) :
    GoMap.index (GoMap.set m k v) k = v := by
  simp [GoMap.index, GoMap.get_set_same]

theorem GoMap.index_set_other {α : Type} (m : GoMap (Slice α)) (k k2 : String) (v : Slice α)
    (hk : k ≠ k2) : GoMap.index (GoMap.set m k v) k2 = GoMap.index m k2 := by
  simp [GoMap.index, GoMap.get_set_other m k k2 v hk]

/-! ## One step of the row loop, from an arbitrary state -/

theorem telemetryRow_speed (fmt : Time → String) (st : TelemetryResponse) (rec : Record) :
    GoMap.index (telemetryRow fmt st rec).series "speed"
      = match asInt64 (rec.ValueByKey "speed") with
        | some v => goAppend (GoMap.index st.series "speed") (seriesPoint (fmt rec.time) (.int64 v))
        | none => GoMap.index st.series "speed" := by
  unfold telemetryRow
  cases asInt64 (rec.ValueByKey "speed") <;>
  cases asInt64 (rec.ValueByKey "fls485_level_2") <;>
  cases asFloat64 (rec.ValueByKey "main_power_voltage") <;>
  simp [GoMap.index_set_same, GoMap.index_set_other, seriesPoint]

theorem telemetryRow_level (fmt : Time → String) (st : TelemetryResponse) (rec : Record) :
    GoMap.index (telemetryRow fmt st rec).series "fls485_level_2"
      = match asInt64 (rec.ValueByKey "fls485_level_2") with
        | some v =>
          goAppend (GoMap.index st.series "fls485_level_2") (seriesPoint (fmt rec.time) (.int64 v))
        | none => GoMap.index st.series "fls485_level_2" := by
  unfold telemetryRow
  cases asInt64 (rec.ValueByKey "speed") <;>
  cases asInt64 (rec.ValueByKey "fls485_level_2") <;>
  cases asFloat64 (rec.ValueByKey "main_power_voltage") <;>
  simp [GoMap.index_set_same, GoMap.index_set_other, seriesPoint]

theorem telemetryRow_voltage (fmt : Time → String) (st : TelemetryResponse) (rec : Record) :
    GoMap.index (telemetryRow fmt st rec).series "main_power_voltage"
      = match asFloat64 (rec.ValueByKey "main_power_voltage") with
        | some v =>
          goAppend (GoMap.index st.series "main_power_voltage")
            (seriesPoint (fmt rec.time) (.float64 v))
        | none => GoMap.index st.series "main_power_voltage" := by
  unfold telemetryRow
  cases asInt64 (rec.ValueByKey "speed") <;>
  cases asInt64 (rec.ValueByKey "fls485_level_2") <;>
  cases asFloat64 (rec.ValueByKey "main_power_voltage") <;>
  simp [GoMap.index_set_same, GoMap.index_set_other, seriesPoint]

theorem telemetryRow_track (fmt : Time → String) (st : TelemetryResponse) (rec : Record) :
    (telemetryRow fmt st rec).track
      = match trackPointOf fmt rec with
        | some p => goAppend st.track p
        | none => st.track := by
  unfold telemetryRow trackPointOf
  cases asFloat64 (rec.ValueByKey "latitude") <;>
  cases asFloat64 (rec.ValueByKey "longitude") <;>
  simp [trackPoint]

theorem asInt64_null : asInt64 Value.null = none := rfl

theorem asInt64_eq_none (v : Value) (h : ∀ i, v ≠ .int64 i) : asInt64 v = none := by
  cases v <;> simp [asInt64] at *

theorem asFloat64_eq_none (v : Value) (h : ∀ x, v ≠ .float64 x) : asFloat64 v = none := by
  cases v <;> simp [asFloat64] at *

theorem GoMap.get_erase {β : Type} (m : GoMap β) (key k : String) :
    GoMap.get (GoMap.erase m key) k = if k = key then none else GoMap.get m k := by
  induction m with
  | nil => simp [GoMap.get, GoMap.erase]
  | cons p rest ih =>
    obtain ⟨k1, v1⟩ := p
    by_cases h1 : k1 = key
    · subst h1
      by_cases h2 : k = k1
      · subst h2
        simp [GoMap.get, GoMap.erase, ih]
      · have h3 : ¬ k1 = k := fun h => h2 h.symm
        simp [GoMap.get, GoMap.erase, ih, h2, h3]
    · by_cases h2 : k1 = k
      · subst h2
        simp [GoMap.get, GoMap.erase, h1]
      · simp [GoMap.get, GoMap.erase, ih, h1, h2]

theorem Record.ValueByKey_without (rec : Record) (key k : String) :
    (rec.without key).ValueByKey k = if k = key then Value.null else rec.ValueByKey k := by
  unfold Record.ValueByKey Record.without
  simp only [GoMap.get_erase]
  by_cases h : k = key <;> simp [h]

theorem telemetryRow_congr (fmt : Time → String) (st : TelemetryResponse) (r1 r2 : Record)
    (ht : r1.time = r2.time)
    (hs : asInt64 (r1.ValueByKey "speed") = asInt64 (r2.ValueByKey "speed"))
    (hl : asInt64 (r1.ValueByKey "fls485_level_2") = asInt64 (r2.ValueByKey "fls485_level_2"))
    (hv : asFloat64 (r1.ValueByKey "main_power_voltage")
      = asFloat64 (r2.ValueByKey "main_power_voltage"))
    (hlat : asFloat64 (r1.ValueByKey "latitude") = asFloat64 (r2.ValueByKey "latitude"))
    (hlon : asFloat64 (r1.ValueByKey "longitude") = asFloat64 (r2.ValueByKey "longitude"))
    (he : asInt64 (r1.ValueByKey "event_time") = asInt64 (r2.ValueByKey "event_time")) :
    telemetryRow fmt st r1 = telemetryRow fmt st r2 := by
  unfold telemetryRow
  rw [ht, hs, hl, hv, hlat, hlon, he]

theorem get_series_speed (a b c : Slice (GoMap Value)) :
    GoMap.get [("speed", a), ("fls485_level_2", b), ("main_power_voltage", c)] "speed"
      = some a := by
  simp [GoMap.get]

theorem get_series_level (a b c : Slice (GoMap Value)) :
    GoMap.get [("speed", a), ("fls485_level_2", b), ("main_power_voltage", c)] "fls485_level_2"
      = some b := by
  simp [GoMap.get]

theorem get_series_voltage (a b c : Slice (GoMap Value)) :
    GoMap.get [("speed", a), ("fls485_level_2", b), ("main_power_voltage", c)]
      "main_power_voltage" = some c := by
  simp [GoMap.get]

theorem pointTime_intPointOf (fmt : Time → String) (key : String) (rec : Record)
    (p : GoMap Value) (h : intPointOf fmt key rec = some p) : pointTime p = fmt rec.time := by
  unfold intPointOf at h
  cases hv : asInt64 (rec.ValueByKey key) with
  | none => simp [hv] at h
  | some v =>
    simp [hv] at h
    subst h
    simp [pointTime, seriesPoint, GoMap.get]

theorem pointTime_voltagePointOf (fmt : Time → String) (rec : Record)
    (p : GoMap Value) (h : voltagePointOf fmt rec = some p) : pointTime p = fmt rec.time := by
  unfold voltagePointOf at h
  cases hv : asFloat64 (rec.ValueByKey "main_power_voltage") with
  | none => simp [hv] at h
  | some v =>
    simp [hv] at h
    subst h
    simp [pointTime, seriesPoint, GoMap.get]

theorem pointTime_trackPointOf (fmt : Time → String) (rec : Record)
    (p : GoMap Value) (h : trackPointOf fmt rec = some p) : pointTime p = fmt rec.time := by
  unfold trackPointOf at h
  cases hlat : asFloat64 (rec.ValueByKey "latitude") with
  | none => simp [hlat] at h
  | some lat =>
    cases hlon : asFloat64 (rec.ValueByKey "longitude") with
    | none => simp [hlat, hlon] at h
    | some lon =>
      simp [hlat, hlon] at h
      subst h
      simp [pointTime, trackPoint, GoMap.get]

theorem filterMap_times_sublist (fmt : Time → String) (f : Record → Option (GoMap Value))
    (hf : ∀ rec p, f rec = some p → pointTime p = fmt rec.time) (records : List Record) :
    ((records.filterMap f).map pointTime).Sublist (records.map (fun rec => fmt rec.time)) := by
  induction records with
  | nil => simp
  | cons rec rest ih =>
    cases h : f rec with
    | none =>
      simp only [List.filterMap_cons, h, List.map_cons]
      exact List.Sublist.cons _ ih
    | some p =>
      simp only [List.filterMap_cons, h, List.map_cons]
      rw [hf rec p h]
      exact List.Sublist.cons₂ _ ih

theorem foldl_goAppend {α β : Type} (f : α → β) (l : List α) :
    ∀ acc : Slice β,
      l.foldl (fun d x => goAppend d (f x)) acc
        = match l with
          | [] => acc
          | _ :: _ => some (acc.elems ++ l.map f) := by
  induction l with
  | nil => intro acc; simp
  | cons x rest ih =>
    intro acc
    rw [List.foldl_cons, ih]
    cases acc <;> cases rest <;> simp [goAppend, Slice.elems]

/-! ## The map stage of the query -/

theorem voltageMapStage_voltage (conv : Value → ℚ) (r : Record) :
    (voltageMapStage conv r).ValueByKey "main_power_voltage"
      = .float64 (mappedVoltage conv r) := by
  unfold voltageMapStage mappedVoltage Record.ValueByKey
  simp only [GoMap.get_set_same, Option.getD_some]
  split <;> simp [fluxFloat]

theorem voltageMapStage_other (conv : Value → ℚ) (r : Record) (k : String)
    (hk : "main_power_voltage" ≠ k) :
    (voltageMapStage conv r).ValueByKey k = r.ValueByKey k := by
  unfold voltageMapStage Record.ValueByKey
  simp only [GoMap.get_set_other _ _ _ _ hk]

theorem voltagePointOf_mapped (fmt : Time → String) (conv : Value → ℚ) (r : Record) :
    voltagePointOf fmt (voltageMapStage conv r)
      = some (seriesPoint (fmt r.time) (.float64 (mappedVoltage conv r))) := by
  unfold voltagePointOf
  rw [voltageMapStage_voltage]
  rfl

theorem filterMap_voltage_mapped (fmt : Time → String) (conv : Value → ℚ)
    (pivoted : List Record) :
    (pivoted.map (voltageMapStage conv)).filterMap (voltagePointOf fmt)
      = pivoted.map (fun r => seriesPoint (fmt r.time) (.float64 (mappedVoltage conv r))) := by
  induction pivoted with
  | nil => rfl
  | cons r rest ih =>
    simp only [List.map_cons, List.filterMap_cons, voltagePointOf_mapped, ih]

/-! ## The row loop in closed form -/

theorem telemetryRow_closed (fmt : Time → String) (a b c d : List (GoMap Value)) (rec : Record) :
    telemetryRow fmt
        { series := [("speed", some a), ("fls485_level_2", some b), ("main_power_voltage", some c)]
          track := some d } rec
      = { series :=
            [("speed", some (a ++ (intPointOf fmt "speed" rec).toList)),
             ("fls485_level_2", some (b ++ (intPointOf fmt "fls485_level_2" rec).toList)),
             ("main_power_voltage", some (c ++ (voltagePointOf fmt rec).toList))]
          track := some (d ++ (trackPointOf fmt rec).toList) } := by
  unfold telemetryRow intPointOf voltagePointOf trackPointOf
  cases asInt64 (rec.ValueByKey "speed") <;>
  cases asInt64 (rec.ValueByKey "fls485_level_2") <;>
  cases asFloat64 (rec.ValueByKey "main_power_voltage") <;>
  cases asFloat64 (rec.ValueByKey "latitude") <;>
  cases asFloat64 (rec.ValueByKey "longitude") <;>
  simp [GoMap.set, GoMap.get, GoMap.index, goAppend, seriesPoint, trackPoint]

theorem telemetry_foldl_closed (fmt : Time → String) (records : List Record) :
    ∀ a b c d : List (GoMap Value),
      records.foldl (telemetryRow fmt)
          { series := [("speed", some a), ("fls485_level_2", some b),
                       ("main_power_voltage", some c)]
            track := some d }
        = { series :=
              [("speed", some (a ++ records.filterMap (intPointOf fmt "speed"))),
               ("fls485_level_2", some (b ++ records.filterMap (intPointOf fmt "fls485_level_2"))),
               ("main_power_voltage", some (c ++ records.filterMap (voltagePointOf fmt)))]
            track := some (d ++ records.filterMap (trackPointOf fmt)) } := by
  induction records with
  | nil => intro a b c d; simp
  | cons rec rest ih =>
    intro a b c d
    rw [List.foldl_cons, telemetryRow_closed, ih]
    have h : ∀ (f : Record → Option (GoMap Value)) (l : List (GoMap Value)),
        l ++ (f rec).toList ++ rest.filterMap f = l ++ (rec :: rest).filterMap f := by
      intro f l
      cases hf : f rec <;> simp [List.filterMap_cons, hf]
    simp only [h]

theorem telemetryRowLoop_closed (fmt : Time → String) (records : List Record) :
    telemetryRowLoop fmt records
      = { series :=
            [("speed", some (records.filterMap (intPointOf fmt "speed"))),
             ("fls485_level_2", some (records.filterMap (intPointOf fmt "fls485_level_2"))),
             ("main_power_voltage", some (records.filterMap (voltagePointOf fmt)))]
          track := some (records.filterMap (trackPointOf fmt)) } := by
  unfold telemetryRowLoop telemetryInit
  rw [telemetry_foldl_closed]
  simp

/-! ## Voltage series -/

/-- C1. Voltage is always filled. For every sequence of pivoted rows of the
`/api/telemetry` query, read through the cursor by the row loop, a row with
no `main_power_voltage` gives the voltage series a point with that row's
timestamp and the value 0.0; every row the cursor delivers has a float
voltage, and the voltage series has exactly one point per row, in row
order. -/
theorem voltage_always_filled (fmt : Time → String) (conv : Value → ℚ)
    (pivoted : List Record) :
    (∀ rec ∈ pivoted, rec.ValueByKey "main_power_voltage" = Value.null →
      seriesPoint (fmt rec.time) (.float64 0) ∈
        (GoMap.index (telemetryRowLoop fmt (telemetryCursorRows conv pivoted)).series
          "main_power_voltage").elems) ∧
    (GoMap.index (telemetryRowLoop fmt (telemetryCursorRows conv pivoted)).series
        "main_power_voltage").len = pivoted.length ∧
    GoMap.get (telemetryRowLoop fmt (telemetryCursorRows conv pivoted)).series
        "main_power_voltage"
      = some (some (pivoted.map
          (fun rec => seriesPoint (fmt rec.time) (.float64 (mappedVoltage conv rec))))) ∧
    (∀ row ∈ telemetryCursorRows conv pivoted,
      ∃ x : ℚ, row.ValueByKey "main_power_voltage" = .float64 x) ∧
    (∀ (st : TelemetryResponse) (rec : Record),
      rec.ValueByKey "main_power_voltage" = Value.null →
      GoMap.index (telemetryRow fmt st (voltageMapStage conv rec)).series "main_power_voltage"
        = goAppend (GoMap.index st.series "main_power_voltage")
            (seriesPoint (fmt rec.time) (.float64 0))) := by
  have hget : GoMap.get (telemetryRowLoop fmt (telemetryCursorRows conv pivoted)).series
        "main_power_voltage"
      = some (some (pivoted.map
          (fun rec => seriesPoint (fmt rec.time) (.float64 (mappedVoltage conv rec))))) := by
    rw [telemetryRowLoop_closed, get_series_voltage]
    unfold telemetryCursorRows
    rw [filterMap_voltage_mapped]
  have hidx : GoMap.index (telemetryRowLoop fmt (telemetryCursorRows conv pivoted)).series
        "main_power_voltage"
      = some (pivoted.map
          (fun rec => seriesPoint (fmt rec.time) (.float64 (mappedVoltage conv rec)))) := by
    simp only [GoMap.index, hget, Option.getD_some]
  refine ⟨?_, ?_, hget, ?_, ?_⟩
  · intro rec hrec hnull
    rw [hidx]
    simp only [Slice.elems, List.mem_map]
    exact ⟨rec, hrec, by simp [mappedVoltage, hnull]⟩
  · rw [hidx]
    simp [Slice.len]
  · intro row hrow
    unfold telemetryCursorRows at hrow
    rw [List.mem_map] at hrow
    obtain ⟨rec, _, hrec⟩ := hrow
    subst hrec
    exact ⟨_, voltageMapStage_voltage conv rec⟩
  · intro st rec hnull
    rw [telemetryRow_voltage, voltageMapStage_voltage]
    simp [asFloat64, mappedVoltage, hnull, voltageMapStage]

theorem voltage_always_filled_witness :
    rowNoVoltage.ValueByKey "main_power_voltage" = Value.null ∧
    seriesPoint "1970-01-01T00:00:00Z" (.float64 0) ∈
      (GoMap.index (telemetryRowLoop exampleFormat
        (telemetryCursorRows exampleConv [rowNoVoltage, rowStoredMillivolts])).series
          "main_power_voltage").elems ∧
    (GoMap.index (telemetryRowLoop exampleFormat
        (telemetryCursorRows exampleConv [rowNoVoltage, rowStoredMillivolts])).series
          "main_power_voltage").len = 2 := by
  have h := voltage_always_filled exampleFormat exampleConv [rowNoVoltage, rowStoredMillivolts]
  have hnull : rowNoVoltage.ValueByKey "main_power_voltage" = Value.null := by
    simp [rowNoVoltage, Record.ValueByKey, GoMap.get]
  exact ⟨hnull, h.1 rowNoVoltage (by simp) hnull, h.2.1⟩

/-- C2. Voltage unit scaling. A pivoted row whose `main_power_voltage` holds
the raw value 12345 (as an integer, an unsigned integer or a float) reaches
the row loop through the query's `map` stage and gets a voltage point of
value 12.345; in general a raw numeric value `v` yields the value
`v / 1000`. -/
theorem voltage_unit_scaling (fmt : Time → String) (conv : Value → ℚ) (st : TelemetryResponse)
    (rec : Record) :
    ((rec.ValueByKey "main_power_voltage" = .int64 12345 ∨
        rec.ValueByKey "main_power_voltage" = .uint64 12345 ∨
        rec.ValueByKey "main_power_voltage" = .float64 12345) →
      GoMap.index (telemetryRow fmt st (voltageMapStage conv rec)).series "main_power_voltage"
        = goAppend (GoMap.index st.series "main_power_voltage")
            (seriesPoint (fmt rec.time) (.float64 12.345))) ∧
    (∀ i : Int, rec.ValueByKey "main_power_voltage" = .int64 i →
      GoMap.index (telemetryRow fmt st (voltageMapStage conv rec)).series "main_power_voltage"
        = goAppend (GoMap.index st.series "main_power_voltage")
            (seriesPoint (fmt rec.time) (.float64 ((i : ℚ) / 1000)))) ∧
    (∀ n : Nat, rec.ValueByKey "main_power_voltage" = .uint64 n →
      GoMap.index (telemetryRow fmt st (voltageMapStage conv rec)).series "main_power_voltage"
        = goAppend (GoMap.index st.series "main_power_voltage")
            (seriesPoint (fmt rec.time) (.float64 ((n : ℚ) / 1000)))) ∧
    (∀ x : ℚ, rec.ValueByKey "main_power_voltage" = .float64 x →
      GoMap.index (telemetryRow fmt st (voltageMapStage conv rec)).series "main_power_voltage"
        = goAppend (GoMap.index st.series "main_power_voltage")
            (seriesPoint (fmt rec.time) (.float64 (x / 1000)))) := by
  have hstep : GoMap.index (telemetryRow fmt st (voltageMapStage conv rec)).series
        "main_power_voltage"
      = goAppend (GoMap.index st.series "main_power_voltage")
          (seriesPoint (fmt rec.time) (.float64 (mappedVoltage conv rec))) := by
    rw [telemetryRow_voltage, voltageMapStage_voltage]
    simp [asFloat64, voltageMapStage]
  have hi : ∀ i : Int, rec.ValueByKey "main_power_voltage" = .int64 i →
      mappedVoltage conv rec = (i : ℚ) / 1000 := by
    intro i h
    simp [mappedVoltage, h, fluxFloat]
  have hn : ∀ n : Nat, rec.ValueByKey "main_power_voltage" = .uint64 n →
      mappedVoltage conv rec = (n : ℚ) / 1000 := by
    intro n h
    simp [mappedVoltage, h, fluxFloat]
  have hx : ∀ x : ℚ, rec.ValueByKey "main_power_voltage" = .float64 x →
      mappedVoltage conv rec = x / 1000 := by
    intro x h
    simp [mappedVoltage, h, fluxFloat]
  refine ⟨?_, ?_, ?_, ?_⟩
  · intro h
    have hv : mappedVoltage conv rec = 12.345 := by
      rcases h with h | h | h
      · rw [hi 12345 h]; norm_num
      · rw [hn 12345 h]; norm_num
      · rw [hx 12345 h]; norm_num
    rw [hstep, hv]
  · intro i h
    rw [hstep, hi i h]
  · intro n h
    rw [hstep, hn n h]
  · intro x h
    rw [hstep, hx x h]

theorem voltage_unit_scaling_witness :
    rowStoredMillivolts.ValueByKey "main_power_voltage" = .int64 12345 ∧
    GoMap.index (telemetryRow exampleFormat telemetryInit
        (voltageMapStage exampleConv rowStoredMillivolts)).series "main_power_voltage"
      = goAppend (GoMap.index telemetryInit.series "main_power_voltage")
          (seriesPoint (exampleFormat rowStoredMillivolts.time) (.float64 12.345)) :=
  ⟨by simp [rowStoredMillivolts, Record.ValueByKey, GoMap.get],
   (voltage_unit_scaling exampleFormat exampleConv telemetryInit rowStoredMillivolts).1
     (Or.inl (by simp [rowStoredMillivolts, Record.ValueByKey, GoMap.get]))⟩

/-! ## Cursor errors in the telemetry handler -/

/-- C3: the code departs from the claim. When the cursor delivers one row and
then reports an iteration error, the `/api/telemetry` handler answers with
the series and track built from that row, whereas `/api/imeis`, `/api/fields`
and `queryData` on the same cursor answer with the error. -/
theorem telemetry_cursor_error_returns_rows :
    telemetryHandler exampleFormat "356938035643809" "-1h" "now()"
        (.ok { records := [rowFilledVoltage], err := some "unexpected EOF" })
      = .json
          { series :=
              [("speed", some [seriesPoint "1970-01-01T00:00:00Z" (.int64 5)]),
               ("fls485_level_2", some []),
               ("main_power_voltage", some [seriesPoint "1970-01-01T00:00:00Z" (.float64 0)])]
            track := some [trackPoint "1970-01-01T00:00:00Z" 1 2 0] } ∧
    imeisHandler (.ok { records := [rowFilledVoltage], err := some "unexpected EOF" })
      = .error 500 "Flux parsing error: unexpected EOF" ∧
    fieldsHandler "356938035643809"
        (.ok { records := [rowFilledVoltage], err := some "unexpected EOF" })
      = .error 500 "Flux parsing error: unexpected EOF" ∧
    queryData (.ok { records := [rowFilledVoltage], err := some "unexpected EOF" })
      = (none, some "unexpected EOF") ∧
    telemetryCursorRows exampleConv [rowNoVoltage] = [rowFilledVoltage] := by
  refine ⟨?_, ?_, ?_, rfl, ?_⟩
  · simp [telemetryHandler, telemetryRowLoop_closed, intPointOf, voltagePointOf, trackPointOf,
      rowFilledVoltage, Record.ValueByKey, GoMap.get, asInt64, asFloat64, exampleFormat]
  · simp [imeisHandler]
  · simp [fieldsHandler]
  · simp [telemetryCursorRows, voltageMapStage, rowNoVoltage, rowFilledVoltage,
      Record.ValueByKey, GoMap.get, GoMap.set, fluxFloat]

/-! ## Track -/

/-- C4. A row appends exactly one track point `{time, lat, lon, event_time}`
when `latitude` and `longitude` are both floats, and none otherwise; the
point's `event_time` is the row's `event_time` when that is an integer and 0
when it is absent or of another type. -/
theorem track_requires_both_coordinates (fmt : Time → String) (st : TelemetryResponse)
    (rec : Record) :
    (∀ (lat lon : ℚ) (e : Int),
      rec.ValueByKey "latitude" = .float64 lat → rec.ValueByKey "longitude" = .float64 lon →
      rec.ValueByKey "event_time" = .int64 e →
      (telemetryRow fmt st rec).track
        = goAppend st.track (trackPoint (fmt rec.time) lat lon e)) ∧
    (∀ lat lon : ℚ,
      rec.ValueByKey "latitude" = .float64 lat → rec.ValueByKey "longitude" = .float64 lon →
      (∀ e : Int, rec.ValueByKey "event_time" ≠ .int64 e) →
      (telemetryRow fmt st rec).track
        = goAppend st.track (trackPoint (fmt rec.time) lat lon 0)) ∧
    (((∀ lat : ℚ, rec.ValueByKey "latitude" ≠ .float64 lat) ∨
        (∀ lon : ℚ, rec.ValueByKey "longitude" ≠ .float64 lon)) →
      (telemetryRow fmt st rec).track = st.track) ∧
    (∀ p, (goAppend st.track p).len = st.track.len + 1) := by
  refine ⟨?_, ?_, ?_, ?_⟩
  · intro lat lon e hlat hlon he
    rw [telemetryRow_track]
    simp [trackPointOf, hlat, hlon, he, asFloat64, asInt64]
  · intro lat lon hlat hlon he
    rw [telemetryRow_track]
    simp [trackPointOf, hlat, hlon, asInt64_eq_none _ he, asFloat64]
  · intro h
    rw [telemetryRow_track]
    rcases h with h | h
    · simp [trackPointOf, asFloat64_eq_none _ h]
    · cases hl : asFloat64 (rec.ValueByKey "latitude") <;>
        simp [trackPointOf, hl, asFloat64_eq_none _ h]
  · intro p
    cases h : st.track <;> simp [goAppend, Slice.len]

theorem track_requires_both_coordinates_witness :
    (telemetryRow exampleFormat telemetryInit rowBadSpeed).track
        = goAppend telemetryInit.track (trackPoint "1970-01-01T00:02:00Z" (11 / 10) (21 / 10) 42) ∧
    (telemetryRow exampleFormat telemetryInit rowNoVoltage).track
        = goAppend telemetryInit.track (trackPoint "1970-01-01T00:00:00Z" 1 2 0) ∧
    (telemetryRow exampleFormat telemetryInit rowRawVoltage).track = telemetryInit.track := by
  have hBad := track_requires_both_coordinates exampleFormat telemetryInit rowBadSpeed
  have hNo := track_requires_both_coordinates exampleFormat telemetryInit rowNoVoltage
  have hRaw := track_requires_both_coordinates exampleFormat telemetryInit rowRawVoltage
  refine ⟨?_, ?_, ?_⟩
  · exact hBad.1 (11 / 10) (21 / 10) 42
      (by simp [rowBadSpeed, Record.ValueByKey, GoMap.get])
      (by simp [rowBadSpeed, Record.ValueByKey, GoMap.get])
      (by simp [rowBadSpeed, Record.ValueByKey, GoMap.get])
  · exact hNo.2.1 1 2
      (by simp [rowNoVoltage, Record.ValueByKey, GoMap.get])
      (by simp [rowNoVoltage, Record.ValueByKey, GoMap.get])
      (by simp [rowNoVoltage, Record.ValueByKey, GoMap.get])
  · exact hRaw.2.2.1 (Or.inl (by simp [rowRawVoltage, Record.ValueByKey, GoMap.get]))

/-! ## Integer series -/

/-- C5. Type mismatch equals absence. Let `key` be `speed` and `other` be
`fls485_level_2`, or the reverse, and let the row's `key` lookup not be an
integer. Then the row gives the `key` series no point, and the rest of the
row is still projected: an integer `other` appends its point, a float
voltage appends its point, and float coordinates append the track point with
the row's event time or 0. The step is the step on the same row without
the `key` column. On any row stream containing the row, the `key` series is
made of the points of the other rows only, the remaining series and the
track contain this row's points, and the handler answers with that body. -/
theorem type_mismatch_equals_absence (fmt : Time → String) (st : TelemetryResponse)
    (rec : Record) (key other : String)
    (hkey : (key = "speed" ∧ other = "fls485_level_2") ∨
      (key = "fls485_level_2" ∧ other = "speed"))
    (hbad : ∀ i : Int, rec.ValueByKey key ≠ .int64 i) :
    GoMap.index (telemetryRow fmt st rec).series key = GoMap.index st.series key ∧
    (∀ v : Int, rec.ValueByKey other = .int64 v →
      GoMap.index (telemetryRow fmt st rec).series other
        = goAppend (GoMap.index st.series other) (seriesPoint (fmt rec.time) (.int64 v))) ∧
    ((∀ v : Int, rec.ValueByKey other ≠ .int64 v) →
      GoMap.index (telemetryRow fmt st rec).series other = GoMap.index st.series other) ∧
    (∀ x : ℚ, rec.ValueByKey "main_power_voltage" = .float64 x →
      GoMap.index (telemetryRow fmt st rec).series "main_power_voltage"
        = goAppend (GoMap.index st.series "main_power_voltage")
            (seriesPoint (fmt rec.time) (.float64 x))) ∧
    (∀ (lat lon : ℚ) (e : Int),
      rec.ValueByKey "latitude" = .float64 lat → rec.ValueByKey "longitude" = .float64 lon →
      rec.ValueByKey "event_time" = .int64 e →
      (telemetryRow fmt st rec).track
        = goAppend st.track (trackPoint (fmt rec.time) lat lon e)) ∧
    (∀ lat lon : ℚ,
      rec.ValueByKey "latitude" = .float64 lat → rec.ValueByKey "longitude" = .float64 lon →
      (∀ e : Int, rec.ValueByKey "event_time" ≠ .int64 e) →
      (telemetryRow fmt st rec).track
        = goAppend st.track (trackPoint (fmt rec.time) lat lon 0)) ∧
    telemetryRow fmt st rec = telemetryRow fmt st (rec.without key) ∧
    (∀ before after : List Record,
      GoMap.get (telemetryRowLoop fmt (before ++ rec :: after)).series key
        = some (some ((before ++ after).filterMap (intPointOf fmt key))) ∧
      GoMap.get (telemetryRowLoop fmt (before ++ rec :: after)).series other
        = some (some (before.filterMap (intPointOf fmt other)
            ++ (intPointOf fmt other rec).toList
            ++ after.filterMap (intPointOf fmt other))) ∧
      GoMap.get (telemetryRowLoop fmt (before ++ rec :: after)).series "main_power_voltage"
        = some (some (before.filterMap (voltagePointOf fmt)
            ++ (voltagePointOf fmt rec).toList
            ++ after.filterMap (voltagePointOf fmt))) ∧
      (telemetryRowLoop fmt (before ++ rec :: after)).track
        = some (before.filterMap (trackPointOf fmt)
            ++ (trackPointOf fmt rec).toList
            ++ after.filterMap (trackPointOf fmt))) ∧
    (∀ (imei start stop : String) (before after : List Record),
      imei ≠ "" → start ≠ "" → stop ≠ "" →
      telemetryHandler fmt imei start stop
          (.ok { records := before ++ rec :: after, err := none })
        = .json (telemetryRowLoop fmt (before ++ rec :: after))) := by
  have hnone : asInt64 (rec.ValueByKey key) = none := asInt64_eq_none _ hbad
  have hsplit : ∀ (f : Record → Option (GoMap Value)) (before after : List Record),
      (before ++ rec :: after).filterMap f
        = before.filterMap f ++ (f rec).toList ++ after.filterMap f := by
    intro f before after
    cases hf : f rec <;> simp [List.filterMap_append, List.filterMap_cons, hf]
  refine ⟨?_, ?_, ?_, ?_, ?_, ?_, ?_, ?_, ?_⟩
  · rcases hkey with ⟨h, _⟩ | ⟨h, _⟩
    · subst h
      rw [telemetryRow_speed, hnone]
    · subst h
      rw [telemetryRow_level, hnone]
  · intro v hv
    rcases hkey with ⟨_, h⟩ | ⟨_, h⟩
    · subst h
      rw [telemetryRow_level, hv]
      rfl
    · subst h
      rw [telemetryRow_speed, hv]
      rfl
  · intro hv
    rcases hkey with ⟨_, h⟩ | ⟨_, h⟩
    · subst h
      rw [telemetryRow_level, asInt64_eq_none _ hv]
    · subst h
      rw [telemetryRow_speed, asInt64_eq_none _ hv]
  · intro x hx
    rw [telemetryRow_voltage, hx]
    rfl
  · intro lat lon e hlat hlon he
    rw [telemetryRow_track]
    simp [trackPointOf, hlat, hlon, he, asFloat64, asInt64]
  · intro lat lon hlat hlon he
    rw [telemetryRow_track]
    simp [trackPointOf, hlat, hlon, asInt64_eq_none _ he, asFloat64]
  · rcases hkey with ⟨h, _⟩ | ⟨h, _⟩
    · subst h
      apply telemetryRow_congr
      · rfl
      all_goals simp [Record.ValueByKey_without, hnone, asInt64_null]
    · subst h
      apply telemetryRow_congr
      · rfl
      all_goals simp [Record.ValueByKey_without, hnone, asInt64_null]
  · intro before after
    have hp : intPointOf fmt key rec = none := by simp [intPointOf, hnone]
    have hk : (before ++ rec :: after).filterMap (intPointOf fmt key)
        = (before ++ after).filterMap (intPointOf fmt key) := by
      rw [hsplit, hp]
      simp [List.filterMap_append]
    rw [telemetryRowLoop_closed]
    rcases hkey with ⟨h1, h2⟩ | ⟨h1, h2⟩
    · subst h1
      subst h2
      refine ⟨?_, ?_, ?_, ?_⟩
      · rw [get_series_speed, hk]
      · rw [get_series_level, hsplit]
      · rw [get_series_voltage, hsplit]
      · exact congrArg some (hsplit (trackPointOf fmt) before after)
    · subst h1
      subst h2
      refine ⟨?_, ?_, ?_, ?_⟩
      · rw [get_series_level, hk]
      · rw [get_series_speed, hsplit]
      · rw [get_series_voltage, hsplit]
      · exact congrArg some (hsplit (trackPointOf fmt) before after)
  · intro imei start stop before after h1 h2 h3
    simp [telemetryHandler, h1, h2, h3]

theorem type_mismatch_equals_absence_witness :
    rowBadSpeedFilled.ValueByKey "speed" = .str "fast" ∧
    GoMap.index (telemetryRow exampleFormat telemetryInit rowBadSpeedFilled).series "speed"
      = some [] ∧
    GoMap.index (telemetryRow exampleFormat telemetryInit rowBadSpeedFilled).series
        "main_power_voltage"
      = some [seriesPoint "1970-01-01T00:02:00Z" (.float64 0)] ∧
    (telemetryRow exampleFormat telemetryInit rowBadSpeedFilled).track
      = some [trackPoint "1970-01-01T00:02:00Z" (11 / 10) (21 / 10) 42] ∧
    telemetryHandler exampleFormat "356938035643809" "-1h" "now()"
        (.ok { records := [rowFilledVoltage] ++ rowBadSpeedFilled :: [], err := none })
      = .json (telemetryRowLoop exampleFormat ([rowFilledVoltage] ++ rowBadSpeedFilled :: [])) ∧
    GoMap.get (telemetryRowLoop exampleFormat
        ([rowFilledVoltage] ++ rowBadSpeedFilled :: [])).series "speed"
      = some (some [seriesPoint "1970-01-01T00:00:00Z" (.int64 5)]) := by
  have hlook : ∀ k, rowBadSpeedFilled.ValueByKey k
      = (GoMap.get rowBadSpeedFilled.values k).getD Value.null := fun _ => rfl
  have h := type_mismatch_equals_absence exampleFormat telemetryInit rowBadSpeedFilled
    "speed" "fls485_level_2" (Or.inl ⟨rfl, rfl⟩)
    (by simp [rowBadSpeedFilled, Record.ValueByKey, GoMap.get])
  obtain ⟨h1, _, _, h4, h5, _, _, h8, h9⟩ := h
  refine ⟨by simp [rowBadSpeedFilled, Record.ValueByKey, GoMap.get], ?_, ?_, ?_, ?_, ?_⟩
  · rw [h1]
    simp [telemetryInit, GoMap.index, GoMap.get]
  · rw [h4 0 (by simp [rowBadSpeedFilled, Record.ValueByKey, GoMap.get])]
    simp [telemetryInit, GoMap.index, GoMap.get, goAppend, rowBadSpeedFilled, exampleFormat]
  · rw [h5 (11 / 10) (21 / 10) 42
      (by simp [rowBadSpeedFilled, Record.ValueByKey, GoMap.get])
      (by simp [rowBadSpeedFilled, Record.ValueByKey, GoMap.get])
      (by simp [rowBadSpeedFilled, Record.ValueByKey, GoMap.get])]
    simp [telemetryInit, goAppend, rowBadSpeedFilled, exampleFormat]
  · exact h9 "356938035643809" "-1h" "now()" [rowFilledVoltage] [] (by decide) (by decide)
      (by decide)
  · rw [(h8 [rowFilledVoltage] []).1]
    simp [intPointOf, rowFilledVoltage, Record.ValueByKey, GoMap.get, asInt64, exampleFormat,
      seriesPoint]

/-- C6. The `speed` series of the row loop is, in row order, exactly one
point per row whose `speed` lookup is an integer, with that row's time and
value, and likewise for `fls485_level_2`; it is the same for two row streams
that agree on times and on that column, whatever else the rows carry. With
`speed` at rows 1 and 3 only and `fls485_level_2` at row 2 only, the `speed`
series has exactly the two points of rows 1 and 3 and the `fls485_level_2`
series exactly the point of row 2. -/
theorem sparse_series_independent (fmt : Time → String) :
    (∀ records : List Record,
      GoMap.get (telemetryRowLoop fmt records).series "speed"
        = some (some (records.filterMap (intPointOf fmt "speed"))) ∧
      GoMap.get (telemetryRowLoop fmt records).series "fls485_level_2"
        = some (some (records.filterMap (intPointOf fmt "fls485_level_2")))) ∧
    (∀ (key : String) (rs1 rs2 : List Record),
      key = "speed" ∨ key = "fls485_level_2" →
      rs1.map (fun rec => (rec.time, asInt64 (rec.ValueByKey key)))
        = rs2.map (fun rec => (rec.time, asInt64 (rec.ValueByKey key))) →
      GoMap.get (telemetryRowLoop fmt rs1).series key
        = GoMap.get (telemetryRowLoop fmt rs2).series key) ∧
    (∀ (r1 r2 r3 : Record) (a1 a3 b2 : Int),
      r1.ValueByKey "speed" = .int64 a1 → (∀ i : Int, r2.ValueByKey "speed" ≠ .int64 i) →
      r3.ValueByKey "speed" = .int64 a3 →
      (∀ i : Int, r1.ValueByKey "fls485_level_2" ≠ .int64 i) →
      r2.ValueByKey "fls485_level_2" = .int64 b2 →
      (∀ i : Int, r3.ValueByKey "fls485_level_2" ≠ .int64 i) →
      GoMap.get (telemetryRowLoop fmt [r1, r2, r3]).series "speed"
        = some (some [seriesPoint (fmt r1.time) (.int64 a1),
                      seriesPoint (fmt r3.time) (.int64 a3)]) ∧
      GoMap.get (telemetryRowLoop fmt [r1, r2, r3]).series "fls485_level_2"
        = some (some [seriesPoint (fmt r2.time) (.int64 b2)])) := by
  refine ⟨?_, ?_, ?_⟩
  · intro records
    rw [telemetryRowLoop_closed]
    exact ⟨get_series_speed _ _ _, get_series_level _ _ _⟩
  · intro key rs1 rs2 hkey hmap
    have hfm : rs1.filterMap (intPointOf fmt key) = rs2.filterMap (intPointOf fmt key) := by
      have hcomp : ∀ rs : List Record,
          rs.filterMap (intPointOf fmt key)
            = (rs.map (fun rec => (rec.time, asInt64 (rec.ValueByKey key)))).filterMap
                (fun q => q.2.map (fun v => seriesPoint (fmt q.1) (.int64 v))) := by
        intro rs
        rw [List.filterMap_map]
        rfl
      rw [hcomp rs1, hcomp rs2, hmap]
    rw [telemetryRowLoop_closed, telemetryRowLoop_closed]
    rcases hkey with h | h
    · subst h
      rw [get_series_speed, get_series_speed, hfm]
    · subst h
      rw [get_series_level, get_series_level, hfm]
  · intro r1 r2 r3 a1 a3 b2 h1 h2 h3 g1 g2 g3
    rw [telemetryRowLoop_closed, get_series_speed, get_series_level]
    simp [intPointOf, h1, h3, g2, asInt64_eq_none _ h2, asInt64_eq_none _ g1,
      asInt64_eq_none _ g3, asInt64]

theorem sparse_series_independent_witness :
    GoMap.get (telemetryRowLoop exampleFormat [rowNoVoltage, rowLevelOnly, rowSpeedLater]).series
        "speed"
      = some (some [seriesPoint (exampleFormat rowNoVoltage.time) (.int64 5),
                    seriesPoint (exampleFormat rowSpeedLater.time) (.int64 9)]) ∧
    GoMap.get (telemetryRowLoop exampleFormat [rowNoVoltage, rowLevelOnly, rowSpeedLater]).series
        "fls485_level_2"
      = some (some [seriesPoint (exampleFormat rowLevelOnly.time) (.int64 7)]) :=
  (sparse_series_independent exampleFormat).2.2 rowNoVoltage rowLevelOnly rowSpeedLater 5 9 7
    (by simp [rowNoVoltage, Record.ValueByKey, GoMap.get])
    (by simp [rowLevelOnly, Record.ValueByKey, GoMap.get])
    (by simp [rowSpeedLater, Record.ValueByKey, GoMap.get])
    (by simp [rowNoVoltage, Record.ValueByKey, GoMap.get])
    (by simp [rowLevelOnly, Record.ValueByKey, GoMap.get])
    (by simp [rowSpeedLater, Record.ValueByKey, GoMap.get])

/-! ## Ordering -/

/-- C7. The timestamps of each of the three series and of the track produced
by the row loop form a subsequence of the formatted timestamps of the input
rows; hence, when the rows come in ascending time order and formatting is
monotone for an order on the formatted timestamps, every series and the
track are in ascending order. -/
theorem ordering_preserved (fmt : Time → String) (records : List Record) :
    (∀ key ∈ seriesKeys,
      (((GoMap.index (telemetryRowLoop fmt records).series key).elems).map pointTime).Sublist
        (records.map (fun rec => fmt rec.time))) ∧
    (((telemetryRowLoop fmt records).track.elems).map pointTime).Sublist
      (records.map (fun rec => fmt rec.time)) ∧
    (∀ le : String → String → Prop,
      (∀ a b : Time, a ≤ b → le (fmt a) (fmt b)) →
      records.Pairwise (fun r1 r2 => r1.time ≤ r2.time) →
      (∀ key ∈ seriesKeys,
        (((GoMap.index (telemetryRowLoop fmt records).series key).elems).map
          pointTime).Pairwise le) ∧
      (((telemetryRowLoop fmt records).track.elems).map pointTime).Pairwise le) := by
  have hs : ∀ key ∈ seriesKeys,
      (((GoMap.index (telemetryRowLoop fmt records).series key).elems).map pointTime).Sublist
        (records.map (fun rec => fmt rec.time)) := by
    intro key hkey
    rw [telemetryRowLoop_closed]
    simp only [seriesKeys, List.mem_cons, List.mem_singleton, List.not_mem_nil, or_false] at hkey
    rcases hkey with h | h | h
    · subst h
      simp only [GoMap.index, get_series_speed, Option.getD_some, Slice.elems]
      exact filterMap_times_sublist fmt _ (pointTime_intPointOf fmt "speed") records
    · subst h
      simp only [GoMap.index, get_series_level, Option.getD_some, Slice.elems]
      exact filterMap_times_sublist fmt _ (pointTime_intPointOf fmt "fls485_level_2") records
    · subst h
      simp only [GoMap.index, get_series_voltage, Option.getD_some, Slice.elems]
      exact filterMap_times_sublist fmt _ (pointTime_voltagePointOf fmt) records
  have ht : (((telemetryRowLoop fmt records).track.elems).map pointTime).Sublist
      (records.map (fun rec => fmt rec.time)) := by
    rw [telemetryRowLoop_closed]
    simp only [Slice.elems]
    exact filterMap_times_sublist fmt _ (pointTime_trackPointOf fmt) records
  refine ⟨hs, ht, ?_⟩
  intro le hmono hsorted
  have htimes : (records.map (fun rec => fmt rec.time)).Pairwise le := by
    rw [List.pairwise_map]
    exact hsorted.imp (fun h => hmono _ _ h)
  exact ⟨fun key hkey => htimes.sublist (hs key hkey), htimes.sublist ht⟩

theorem ordering_preserved_witness :
    (((GoMap.index (telemetryRowLoop exampleFormat
        [rowNoVoltage, rowRawVoltage, rowBadSpeed]).series "speed").elems).map pointTime).Sublist
      ([rowNoVoltage, rowRawVoltage, rowBadSpeed].map (fun rec => exampleFormat rec.time)) ∧
    (((telemetryRowLoop exampleFormat
        [rowNoVoltage, rowRawVoltage, rowBadSpeed]).track.elems).map pointTime).Pairwise
      (fun s t => s ≤ t) := by
  have h := ordering_preserved exampleFormat [rowNoVoltage, rowRawVoltage, rowBadSpeed]
  refine ⟨h.1 "speed" (by simp [seriesKeys]), (h.2.2 (fun s t => s ≤ t) ?_ ?_).2⟩
  · intro a b hab
    unfold exampleFormat
    by_cases ha1 : a < 60000000000 <;> by_cases ha2 : a < 120000000000 <;>
      by_cases hb1 : b < 60000000000 <;> by_cases hb2 : b < 120000000000 <;>
      simp only [ha1, ha2, hb1, hb2, if_true, if_false] <;>
      first
        | exact le_refl _
        | (simp; decide)
        | (exfalso; linarith)
  · simp [rowNoVoltage, rowRawVoltage, rowBadSpeed]

/-! ## Output grouping -/

/-- C8. Whatever rows the loop has read, the series map has exactly the keys
`speed`, `fls485_level_2` and `main_power_voltage`, each bound to a non-nil
list, and the track is a non-nil list; on the empty row stream the three
series and the track are empty lists and the handler answers with that body,
not with an error. -/
theorem fixed_output_grouping (fmt : Time → String) (records : List Record) :
    GoMap.keys (telemetryRowLoop fmt records).series
      = ["speed", "fls485_level_2", "main_power_voltage"] ∧
    (∀ key ∈ seriesKeys,
      ∃ l, GoMap.get (telemetryRowLoop fmt records).series key = some (some l)) ∧
    (∀ key, key ∉ seriesKeys → GoMap.get (telemetryRowLoop fmt records).series key = none) ∧
    (∃ l, (telemetryRowLoop fmt records).track = some l) ∧
    telemetryRowLoop fmt []
      = { series :=
            [("speed", some []), ("fls485_level_2", some []), ("main_power_voltage", some [])]
          track := some [] } ∧
    (∀ imei start stop : String, imei ≠ "" → start ≠ "" → stop ≠ "" →
      telemetryHandler fmt imei start stop (.ok { records := [], err := none })
        = .json
            { series :=
                [("speed", some []), ("fls485_level_2", some []),
                 ("main_power_voltage", some [])]
              track := some [] }) := by
  refine ⟨?_, ?_, ?_, ?_, rfl, ?_⟩
  · rw [telemetryRowLoop_closed]
    rfl
  · intro key hkey
    rw [telemetryRowLoop_closed]
    simp only [seriesKeys, List.mem_cons, List.mem_singleton, List.not_mem_nil, or_false] at hkey
    rcases hkey with h | h | h
    · subst h
      exact ⟨_, get_series_speed _ _ _⟩
    · subst h
      exact ⟨_, get_series_level _ _ _⟩
    · subst h
      exact ⟨_, get_series_voltage _ _ _⟩
  · intro key hkey
    rw [telemetryRowLoop_closed]
    simp only [seriesKeys, List.mem_cons, List.mem_singleton, List.not_mem_nil, or_false,
      not_or] at hkey
    obtain ⟨h1, h2, h3⟩ := hkey
    have g1 : ¬ "speed" = key := fun h => h1 h.symm
    have g2 : ¬ "fls485_level_2" = key := fun h => h2 h.symm
    have g3 : ¬ "main_power_voltage" = key := fun h => h3 h.symm
    simp [GoMap.get, g1, g2, g3]
  · rw [telemetryRowLoop_closed]
    exact ⟨_, rfl⟩
  · intro imei start stop h1 h2 h3
    simp [telemetryHandler, h1, h2, h3, telemetryRowLoop, telemetryInit]

theorem fixed_output_grouping_witness :
    (∃ l, GoMap.get (telemetryRowLoop exampleFormat [rowBadSpeed]).series "fls485_level_2"
      = some (some l)) ∧
    GoMap.get (telemetryRowLoop exampleFormat [rowBadSpeed]).series "latitude" = none ∧
    telemetryHandler exampleFormat "356938035643809" "-1h" "now()"
        (.ok { records := [], err := none })
      = .json
          { series :=
              [("speed", some []), ("fls485_level_2", some []), ("main_power_voltage", some [])]
            track := some [] } := by
  have h := fixed_output_grouping exampleFormat [rowBadSpeed]
  exact ⟨h.2.1 "fls485_level_2" (by simp [seriesKeys]),
    h.2.2.1 "latitude" (by simp [seriesKeys]),
    h.2.2.2.2.2 "356938035643809" "-1h" "now()" (by decide) (by decide) (by decide)⟩

/-! ## Store failures and the flat export -/

/-- C9. When the store call fails, `queryData` returns nil data with the
error and the telemetry handler answers with an error, never with a JSON
body; when the cursor reports an error after iteration, `queryData` returns
nil data with that error; `queryData` never returns both non-nil data and a
non-nil error. -/
theorem store_failure_is_terminal :
    (∀ e : String, queryData (.error e) = (none, some e)) ∧
    (∀ (fmt : Time → String) (imei start stop e : String),
      telemetryHandler fmt imei start stop (.error e)
        = if imei = "" ∨ start = "" ∨ stop = "" then
            .error 400 "imei, start, end обязательны"
          else .error 500 ("Query error: " ++ e)) ∧
    (∀ (fmt : Time → String) (imei start stop e : String) (body : TelemetryResponse),
      telemetryHandler fmt imei start stop (.error e) ≠ .json body) ∧
    (∀ (records : List Record) (e : String),
      queryData (.ok { records := records, err := some e }) = (none, some e)) ∧
    (∀ query : QueryOutcome, ¬ ((queryData query).1 ≠ none ∧ (queryData query).2 ≠ none)) := by
  refine ⟨fun e => rfl, fun fmt imei start stop e => rfl, ?_, fun records e => rfl, ?_⟩
  · intro fmt imei start stop e body
    unfold telemetryHandler
    by_cases h : imei = "" ∨ start = "" ∨ stop = "" <;> simp [h]
  · intro query
    rcases query with e | ⟨records, err⟩
    · simp [queryData]
    · cases err <;> simp [queryData]

/-- C10. On a cursor that yields records `r1..rn` and ends without error,
`queryData` returns no error and a list with exactly `n` entries in cursor
order (the nil list when `n = 0`); entry `i` has exactly the keys `time`,
`field`, `value`, bound to the timestamp, field name and value of `ri`. -/
theorem queryData_returns_flat_rows (records : List Record) :
    (queryData (.ok { records := records, err := none })).2 = none ∧
    (queryData (.ok { records := records, err := none })).1
      = (match records with
         | [] => none
         | _ :: _ => some (records.map dataEntry)) ∧
    (queryData (.ok { records := records, err := none })).1.elems = records.map dataEntry ∧
    (queryData (.ok { records := records, err := none })).1.len = records.length ∧
    (∀ rec : Record,
      GoMap.keys (dataEntry rec) = ["time", "field", "value"] ∧
      GoMap.get (dataEntry rec) "time" = some (.time rec.time) ∧
      GoMap.get (dataEntry rec) "field" = some (.str rec.field) ∧
      GoMap.get (dataEntry rec) "value" = some rec.value) := by
  have hdata : (queryData (.ok { records := records, err := none })).1
      = (match records with
         | [] => none
         | _ :: _ => some (records.map dataEntry)) := by
    simp only [queryData]
    rw [foldl_goAppend]
    cases records <;> simp [Slice.elems]
  refine ⟨rfl, hdata, ?_, ?_, ?_⟩
  · rw [hdata]
    cases records <;> simp [Slice.elems]
  · rw [hdata]
    cases records <;> simp [Slice.len]
  · intro rec
    simp [dataEntry, GoMap.keys, GoMap.get]

end ChartsBack
